import Mathlib

/-!
Verification of the metrics collection, scoring, and anomaly-detection
pipeline of the cloud monitoring backend (`backend/app.py`).

The Python source is shallowly embedded: numeric readings become rationals,
SQL tables become Lean lists with the relevant key discipline, Python
strings become `List Char` where the code manipulates their contents, and
the external outlier model (pyod's ECOD) is a parameter supplying per
observation scores and labels, exactly the two arrays the code reads back
from the fitted model.
-/

namespace Monitoring

/-- Health status buckets returned by `get_status_from_health`. -/
inductive Status
  | healthy
  | degraded
  | warning
  | critical
deriving DecidableEq

/-- Canonical metric record (`ServiceMetrics` dataclass / `service_metrics`
table row).  Timestamps are stored as their ISO string, which is how the
code writes them into the database key. -/
structure ServiceMetrics where
  service_name : String
  timestamp : String
  request_rate : ℚ
  error_rate : ℚ
  latency_p50 : ℚ
  latency_p95 : ℚ
  latency_p99 : ℚ
  cpu_usage : ℚ
  memory_usage : ℚ
  restart_count : ℤ
  pod_count : ℤ
deriving DecidableEq

/-- Direct transcription of `calculate_health_score`: start at 100,
subtract the bracket penalties for error rate, latency p95 and cpu usage
in sequence, and clamp at 0 from below.  (The code reads each field with
an `or 0` null guard, which is the identity on the numeric fields modeled
here.) -/
def calculate_health_score (r : ServiceMetrics) : ℚ :=
  let error_rate := r.error_rate
  let latency_p95 := r.latency_p95
  let cpu_usage := r.cpu_usage
  let score : ℚ := 100
  let score :=
    if error_rate > 0.1 then score - 30
    else if error_rate > 0.05 then score - 15
    else if error_rate > 0.01 then score - 5
    else score
  let score :=
    if latency_p95 > 1000 then score - 25
    else if latency_p95 > 500 then score - 15
    else if latency_p95 > 200 then score - 5
    else score
  let score :=
    if cpu_usage > 0.9 then score - 20
    else if cpu_usage > 0.7 then score - 10
    else score
  max 0 score

/-- Transcription of `get_status_from_health`. -/
def get_status_from_health (health_score : ℚ) : Status :=
  if health_score ≥ 90 then .healthy
  else if health_score ≥ 70 then .degraded
  else if health_score ≥ 50 then .warning
  else .critical

/-- The error-rate penalty of `calculate_health_score`, as a standalone
function (worst matching bracket wins because the brackets are tested from
the largest threshold down). -/
def errPenalty (e : ℚ) : ℚ :=
  if e > 0.1 then 30 else if e > 0.05 then 15 else if e > 0.01 then 5 else 0

/-- The latency-p95 penalty bracket of `calculate_health_score`. -/
def latPenalty (l : ℚ) : ℚ :=
  if l > 1000 then 25 else if l > 500 then 15 else if l > 200 then 5 else 0

/-- The cpu-usage penalty bracket of `calculate_health_score`. -/
def cpuPenalty (c : ℚ) : ℚ :=
  if c > 0.9 then 20 else if c > 0.7 then 10 else 0

/-- Uniqueness key of the `service_metrics` table:
`UNIQUE(service_name, timestamp)`. -/
def metricKey (m : ServiceMetrics) : String × String :=
  (m.service_name, m.timestamp)

/-- `MetricsCollector.store_metrics`: an `INSERT OR REPLACE` keyed on
`(service_name, timestamp)` — any row with the same key is replaced by the
new row. -/
def store_metrics (table : List ServiceMetrics) (m : ServiceMetrics) :
    List ServiceMetrics :=
  table.filter (fun r => decide (metricKey r ≠ metricKey m)) ++ [m]

/-- The table invariant: at most one record per (entity, timestamp) key. -/
def MetricKeyUnique (table : List ServiceMetrics) : Prop :=
  (table.map metricKey).Nodup

/-! ### Metric source and collector -/

/-- The Python exception kinds that can arise inside `_extract_value`'s
try clause or at the `int(...)` calls of `collect_service_metrics`.  The
except clause of `_extract_value` names only the first three; `TypeError`
and `OverflowError` propagate uncaught. -/
inductive PyExc
  | keyError
  | indexError
  | valueError
  | typeError
  | overflowError
deriving DecidableEq

/-- A Python float as produced by `float(...)`: a finite value, NaN, or a
signed infinity.  The metric dataclass stores these unexamined; only
`int(...)` later distinguishes them. -/
inductive PyFloat
  | finite (q : ℚ)
  | nan
  | inf (pos : Bool)
deriving DecidableEq

/-- The `value[1]` slot of the first result entry, classified by what
Python's `float(value[1])` does with it: a JSON number or a numeric
string parses to a finite float; the strings `nan` and `inf`
(signed) parse to non-finite floats; any other string raises
`ValueError` (caught); JSON `null` (`float(None)`) and a non-scalar
(list/object) raise `TypeError` (uncaught). -/
inductive PromValue
  | num (q : ℚ)
  | nanStr
  | infStr (pos : Bool)
  | badStr
  | nullVal
  | nonScalar
deriving DecidableEq

/-- Shape of `response.json()` as far as `_extract_value` traverses it:
`badShape` stands for a body (or nested `data`/`result`/entry) that is
not subscriptable by the expected key, where the traversal raises
`TypeError` (uncaught); `malformedDict` for a dict whose traversal
raises `KeyError` or `IndexError` (caught); `resp` for a well-keyed body
with its `status` string and result-entry values. -/
inductive PromResponse
  | badShape
  | malformedDict
  | resp (status : String) (result : List PromValue)
deriving DecidableEq

/-- Behavior of one raw HTTP query to the source: the request may raise,
or return a response body. -/
inductive SourceBehavior
  | raises
  | returns (r : PromResponse)
deriving DecidableEq

/-- `PrometheusClient.query`: a raised request exception is caught and
replaced by the literal error body with status `error` and an empty
result list. -/
def query : SourceBehavior → PromResponse
  | .raises => .resp "error" []
  | .returns r => r

/-- Python `float(value[1])` on the classified value slot. -/
def pyFloatOfValue : PromValue → Except PyExc PyFloat
  | .num q => .ok (.finite q)
  | .nanStr => .ok .nan
  | .infStr pos => .ok (.inf pos)
  | .badStr => .error .valueError
  | .nullVal => .error .typeError
  | .nonScalar => .error .typeError

/-- The try clause of `_extract_value`: traverse the body and apply
`float` to the first result's value.  A falsy (empty) result list or a
non-`success` status skips the return and falls through to 0.0, which we
fold in here since the caller cannot tell the difference. -/
def tryBody : PromResponse → Except PyExc PyFloat
  | .badShape => .error .typeError
  | .malformedDict => .error .keyError
  | .resp status result =>
    if status = "success" then
      match result with
      | [] => .ok (.finite 0)
      | v :: _ => pyFloatOfValue v
    else .ok (.finite 0)

/-- The `except (KeyError, IndexError, ValueError)` clause of
`_extract_value`: exactly these kinds are absorbed. -/
def catches : PyExc → Bool
  | .keyError => true
  | .indexError => true
  | .valueError => true
  | .typeError => false
  | .overflowError => false

/-- `MetricsCollector._extract_value`: run the try clause; a caught
exception yields the 0.0 default, any other exception propagates. -/
def extract_value (r : PromResponse) : Except PyExc PyFloat :=
  match tryBody r with
  | .ok f => .ok f
  | .error e => if catches e then .ok (.finite 0) else .error e

/-- The nine scalar readings `collect_service_metrics` queries the source
for. -/
inductive MetricQuery
  | reqRate
  | errRate
  | p50
  | p95
  | p99
  | cpu
  | mem
  | restarts
  | podCount
deriving DecidableEq

/-- Truncation toward zero, the value of Python `int()` on a finite
float. -/
def truncQ (q : ℚ) : ℤ :=
  if 0 ≤ q then Rat.floor q else -Rat.floor (-q)

/-- Python `int()` on a float, as called on the restart and pod-count
readings outside any handler: truncates a finite value, raises
`ValueError` on NaN and `OverflowError` on an infinity. -/
def pyInt : PyFloat → Except PyExc ℤ
  | .finite q => .ok (truncQ q)
  | .nan => .error .valueError
  | .inf _ => .error .overflowError

/-- The `ServiceMetrics` dataclass as the collector builds it: the seven
float fields hold whatever `float(...)` produced (possibly non-finite),
the two integer fields the results of the `int(...)` calls. -/
structure CollectedMetrics where
  service_name : String
  timestamp : String
  request_rate : PyFloat
  error_rate : PyFloat
  latency_p50 : PyFloat
  latency_p95 : PyFloat
  latency_p99 : PyFloat
  cpu_usage : PyFloat
  memory_usage : PyFloat
  restart_count : ℤ
  pod_count : ℤ
deriving DecidableEq

/-- `MetricsCollector.collect_service_metrics`: the nine readings are
obtained in source order, each by its own `query` + `_extract_value`
round trip; the first uncaught exception aborts the whole call, exactly
as in the Python statement sequence.  The record is stamped with the
entity and the current instant. -/
def collect_service_metrics (source : MetricQuery → SourceBehavior)
    (service_name : String) (now : String) : Except PyExc CollectedMetrics := do
  let request_rate ← extract_value (query (source .reqRate))
  let error_rate ← extract_value (query (source .errRate))
  let latency_p50 ← extract_value (query (source .p50))
  let latency_p95 ← extract_value (query (source .p95))
  let latency_p99 ← extract_value (query (source .p99))
  let cpu_usage ← extract_value (query (source .cpu))
  let memory_usage ← extract_value (query (source .mem))
  let restartF ← extract_value (query (source .restarts))
  let restart_count ← pyInt restartF
  let podF ← extract_value (query (source .podCount))
  let pod_count ← pyInt podF
  return { service_name := service_name
           timestamp := now
           request_rate := request_rate
           error_rate := error_rate
           latency_p50 := latency_p50
           latency_p95 := latency_p95
           latency_p99 := latency_p99
           cpu_usage := cpu_usage
           memory_usage := memory_usage
           restart_count := restart_count
           pod_count := pod_count }

/-- The reading of a collected record that came from a given query (the
two integer fields viewed back as finite floats). -/
def readingOf (m : CollectedMetrics) : MetricQuery → PyFloat
  | .reqRate => m.request_rate
  | .errRate => m.error_rate
  | .p50 => m.latency_p50
  | .p95 => m.latency_p95
  | .p99 => m.latency_p99
  | .cpu => m.cpu_usage
  | .mem => m.memory_usage
  | .restarts => .finite (m.restart_count : ℚ)
  | .podCount => .finite (m.pod_count : ℚ)

/-- A source answer whose defect is one the collector absorbs: the
request raised (already replaced by the error body), a dict body whose
traversal raises a caught `KeyError`/`IndexError`, a non-`success`
status, an empty result list, or a first value that `float()` rejects
with a caught `ValueError`. -/
def CaughtBadReading (b : SourceBehavior) : Prop :=
  b = .raises ∨
  b = .returns .malformedDict ∨
  (∃ st res, b = .returns (.resp st res) ∧ st ≠ "success") ∨
  (∃ st, b = .returns (.resp st [])) ∨
  (∃ st tl, b = .returns (.resp st (PromValue.badStr :: tl)))

/-- A source answer carrying an ordinary finite numeric first value under
a `success` status. -/
def NumReading (b : SourceBehavior) : Prop :=
  ∃ (v : ℚ) (tl : List PromValue),
    b = .returns (.resp "success" (PromValue.num v :: tl))

/-! ### Python string fragments used by the detector and the anomaly API -/

/-- The separator `", "` used by the code to serialize the affected-metric
list and to split it back when reading anomalies. -/
def sepC : List Char := [',', ' ']

/-- Python `", ".join(xs)` on strings-as-char-lists. -/
def pyJoin (sep : List Char) : List (List Char) → List Char
  | [] => []
  | [x] => x
  | x :: y :: rest => x ++ sep ++ pyJoin sep (y :: rest)

/-- Python `s.split(", ")`, scanning left to right with an accumulator for
the current piece; the two-character separator is matched greedily at the
leftmost position, exactly as `str.split` does. -/
def pySplitCS : List Char → List Char → List (List Char)
  | acc, [] => [acc.reverse]
  | acc, [c] => [(c :: acc).reverse]
  | acc, c1 :: c2 :: rest =>
    if c1 = ',' then
      if c2 = ' ' then acc.reverse :: pySplitCS [] rest
      else pySplitCS (c1 :: acc) (c2 :: rest)
    else pySplitCS (c1 :: acc) (c2 :: rest)

/-- Python `s.split(", ")` on a whole string. -/
def pySplit (s : List Char) : List (List Char) := pySplitCS [] s

/-- The read side of `get_anomalies`:
`row.split(", ") if row else []` — an empty stored string parses to the
empty list, anything else is split on the separator. -/
def parse_affected (s : List Char) : List (List Char) :=
  if s = [] then [] else pySplit s

/-- Python `str.capitalize()`: first character upper-cased, the rest
lower-cased. -/
def pyCapitalize : List Char → List Char
  | [] => []
  | c :: rest => c.toUpper :: rest.map Char.toLower

/-! ### Anomaly detector -/

/-- One row of the feature matrix handed to the outlier model: the six
numeric columns selected by `get_metric_features`. -/
structure FeatureVec where
  request_rate : ℚ
  error_rate : ℚ
  latency_p95 : ℚ
  cpu_usage : ℚ
  memory_usage : ℚ
  restart_count : ℚ
deriving DecidableEq

/-- Column access by index, in the order of the SELECT column list. -/
def FeatureVec.get (v : FeatureVec) : Fin 6 → ℚ
  | 0 => v.request_rate
  | 1 => v.error_rate
  | 2 => v.latency_p95
  | 3 => v.cpu_usage
  | 4 => v.memory_usage
  | 5 => v.restart_count

/-- Projection of a stored metric record to its feature row
(`get_metric_features` SELECT list; the integer restart count becomes a
float). -/
def toFeatures (m : ServiceMetrics) : FeatureVec :=
  ⟨m.request_rate, m.error_rate, m.latency_p95, m.cpu_usage, m.memory_usage,
    (m.restart_count : ℚ)⟩

/-- The name of the i-th feature column (the `metric_names` list in
`detect_anomalies`). -/
def metricName : Fin 6 → List Char
  | 0 => "request_rate".toList
  | 1 => "error_rate".toList
  | 2 => "latency_p95".toList
  | 3 => "cpu_usage".toList
  | 4 => "memory_usage".toList
  | 5 => "restart_count".toList

/-- Column `i` of the feature matrix (`features[:, i]`). -/
def col (features : List FeatureVec) (i : Fin 6) : List ℚ :=
  features.map (fun v => v.get i)

/-- `np.mean` of a column. -/
def meanQ (l : List ℚ) : ℚ := l.sum / l.length

/-- The population variance of a column; `np.std` is its square root. -/
def varQ (l : List ℚ) : ℚ :=
  ((l.map fun x => (x - meanQ l) ^ 2).sum) / l.length

lemma varQ_nonneg (l : List ℚ) : 0 ≤ varQ l := by
  apply div_nonneg _ (by positivity)
  apply List.sum_nonneg
  intro y hy
  rcases List.mem_map.mp hy with ⟨x, _, rfl⟩
  positivity

/-- The affectedness test of `detect_anomalies`:
`abs(value - metric_mean) > 2 * metric_std`, with `metric_std` the real
square root of the column's population variance. -/
def affectedQ (v : ℚ) (l : List ℚ) : Prop :=
  |(v : ℝ) - (meanQ l : ℝ)| > 2 * Real.sqrt (varQ l)

lemma affectedQ_iff (v : ℚ) (l : List ℚ) :
    affectedQ v l ↔ (v - meanQ l) ^ 2 > 4 * varQ l := by
  have hv : (0:ℝ) ≤ 4 * (varQ l : ℝ) := by
    have h := varQ_nonneg l
    have h' : (0:ℝ) ≤ (varQ l : ℝ) := by exact_mod_cast h
    linarith
  unfold affectedQ
  rw [show (2:ℝ) * Real.sqrt (varQ l) = Real.sqrt (4 * varQ l) by
        rw [show (4:ℝ) * (varQ l : ℝ) = 2 ^ 2 * (varQ l : ℝ) by ring,
          Real.sqrt_mul (by norm_num : (0:ℝ) ≤ (2:ℝ) ^ 2),
          Real.sqrt_sq (by norm_num : (0:ℝ) ≤ (2:ℝ))]]
  rw [show |(v:ℝ) - (meanQ l : ℝ)| = Real.sqrt (((v:ℝ) - (meanQ l : ℝ)) ^ 2) by
        rw [Real.sqrt_sq_eq_abs]]
  rw [gt_iff_lt, Real.sqrt_lt_sqrt_iff hv, gt_iff_lt]
  constructor
  · intro h
    exact_mod_cast h
  · intro h
    exact_mod_cast h

instance (v : ℚ) (l : List ℚ) : Decidable (affectedQ v l) :=
  decidable_of_iff _ (affectedQ_iff v l).symm

/-- The affected-metric attribution loop of `detect_anomalies`: a feature
is collected when its value deviates from the whole-window column mean by
more than two column standard deviations. -/
def affectedMetricsList (features : List FeatureVec) (feature_vector : FeatureVec) :
    List (List Char) :=
  (List.finRange 6).filterMap fun i =>
    if affectedQ (feature_vector.get i) (col features i) then some (metricName i)
    else none

/-- Severity levels assigned by `detect_anomalies`. -/
inductive Severity
  | low
  | medium
  | high
  | critical
deriving DecidableEq

/-- The severity-threshold chain of `detect_anomalies`. -/
def severityOf (score : ℚ) : Severity :=
  if score > 0.9 then .critical
  else if score > 0.7 then .high
  else if score > 0.5 then .medium
  else .low

/-- Ordinal rank of a severity, for stating monotonicity. -/
def sevRank : Severity → ℕ
  | .low => 0
  | .medium => 1
  | .high => 2
  | .critical => 3

/-- The lowercase name the code uses for each severity. -/
def severityName : Severity → List Char
  | .low => "low".toList
  | .medium => "medium".toList
  | .high => "high".toList
  | .critical => "critical".toList

/-- `AnomalyDetector._generate_description`. -/
def generate_description (severity : Severity) (affected_metrics : List (List Char)) :
    List Char :=
  if affected_metrics = [] then
    pyCapitalize (severityName severity) ++ " anomaly detected in service behavior".toList
  else
    pyCapitalize (severityName severity) ++ " anomaly: unusual patterns in ".toList ++
      pyJoin sepC affected_metrics

/-- An anomaly record as built by `detect_anomalies` (the
`metrics_anomalies` row: the affected metrics are stored as the joined
string). -/
structure AnomalyRecord where
  service_name : String
  timestamp : String
  anomaly_type : String
  severity : Severity
  anomaly_score : ℚ
  affected_metrics : List Char
  description : List Char
deriving DecidableEq

/-- The anomaly dict built for one anomalous observation in
`detect_anomalies`. -/
def mkAnomaly (service_name timestamp : String) (features : List FeatureVec)
    (feature_vector : FeatureVec) (score : ℚ) : AnomalyRecord :=
  let severity := severityOf score
  let affected := affectedMetricsList features feature_vector
  { service_name := service_name
    timestamp := timestamp
    anomaly_type := "metric_deviation"
    severity := severity
    anomaly_score := score
    affected_metrics := pyJoin sepC affected
    description := generate_description severity affected }

/-- `AnomalyDetector._store_anomaly`: a plain `INSERT` into the
append-only anomaly table. -/
def store_anomaly (table : List AnomalyRecord) (a : AnomalyRecord) :
    List AnomalyRecord :=
  table ++ [a]

/-- The per-observation loop of `detect_anomalies` over the zipped
(feature row, score, label) triples: an anomalous label produces one
record, appends it to the returned list and persists it. -/
def detectLoop (service_name timestamp : String) (features : List FeatureVec) :
    List (FeatureVec × ℚ × Bool) → List AnomalyRecord × List AnomalyRecord →
      List AnomalyRecord × List AnomalyRecord
  | [], acc => acc
  | (fv, score, isAnom) :: rest, (anomalies, table) =>
    if isAnom then
      let a := mkAnomaly service_name timestamp features fv score
      detectLoop service_name timestamp features rest
        (anomalies ++ [a], store_anomaly table a)
    else
      detectLoop service_name timestamp features rest (anomalies, table)

/-- `AnomalyDetector.detect_anomalies`.  The window `features` is the
most-recent-first feature matrix read from the store; `model` stands for
the fitted ECOD model and returns, per observation of the window, its
decision score and binary label (the external pyod fit).  The result is
the returned anomaly list together with the new contents of the anomaly
table. -/
def detect_anomalies (model : List FeatureVec → List (ℚ × Bool))
    (service_name timestamp : String) (features : List FeatureVec)
    (table : List AnomalyRecord) : List AnomalyRecord × List AnomalyRecord :=
  if features.length < 10 then ([], table)
  else
    detectLoop service_name timestamp features
      ((features.take 5).zip ((model features).take 5)) ([], table)

/-! ### Scheduler (`background_collector`) -/

/-- The inner per-entity body of one scheduler tick: run collect + store +
detect for one entity.  `work` returns the state as mutated up to the
point of any exception together with the caught exception, which the loop
only logs.  The counter in the result counts how many entities were
attempted. -/
def runEntities {σ E : Type} (work : String → σ → σ × Option E) :
    List String → σ → σ × ℕ
  | [], s => (s, 0)
  | name :: rest, s =>
    let s1 := (work name s).1
    let r := runEntities work rest s1
    (r.1, r.2 + 1)

/-- One iteration of the `background_collector` loop: read the active
entity list (which may itself raise — caught by the outer handler, so the
tick leaves the state untouched), then process every listed entity with
its own exception handler. -/
def background_collector_tick {σ E : Type} (listActive : Except E (List String))
    (work : String → σ → σ × Option E) (s : σ) : σ :=
  match listActive with
  | .error _ => s
  | .ok names => (runEntities work names s).1

/-- The perpetual loop: state after `n` ticks, with the environment
(entity-list read result and per-entity behavior) chosen adversarially at
each tick. -/
def background_collector_run {σ E : Type}
    (env : ℕ → Except E (List String) × (String → σ → σ × Option E)) (s0 : σ) :
    ℕ → σ
  | 0 => s0
  | n + 1 =>
    background_collector_tick (env n).1 (env n).2
      (background_collector_run env s0 n)

/-! ### Health scorer: helper lemmas -/

set_option maxHeartbeats 2000000 in
lemma health_score_eq (r : ServiceMetrics) :
    calculate_health_score r =
      max 0 (100 - errPenalty r.error_rate - latPenalty r.latency_p95 -
        cpuPenalty r.cpu_usage) := by
  simp only [calculate_health_score, errPenalty, latPenalty, cpuPenalty]
  split_ifs <;> ring_nf

lemma errPenalty_cases (e : ℚ) :
    errPenalty e = 0 ∨ errPenalty e = 5 ∨ errPenalty e = 15 ∨ errPenalty e = 30 := by
  unfold errPenalty
  split_ifs <;> simp

lemma latPenalty_cases (l : ℚ) :
    latPenalty l = 0 ∨ latPenalty l = 5 ∨ latPenalty l = 15 ∨ latPenalty l = 25 := by
  unfold latPenalty
  split_ifs <;> simp

lemma cpuPenalty_cases (c : ℚ) :
    cpuPenalty c = 0 ∨ cpuPenalty c = 10 ∨ cpuPenalty c = 20 := by
  unfold cpuPenalty
  split_ifs <;> simp

lemma get_status_iff (s : ℚ) :
    (get_status_from_health s = .healthy ↔ 90 ≤ s) ∧
    (get_status_from_health s = .degraded ↔ 70 ≤ s ∧ s < 90) ∧
    (get_status_from_health s = .warning ↔ 50 ≤ s ∧ s < 70) ∧
    (get_status_from_health s = .critical ↔ s < 50) := by
  unfold get_status_from_health
  split_ifs with h1 h2 h3 <;>
    refine ⟨?_, ?_, ?_, ?_⟩ <;> constructor <;> intro hs <;>
    first
      | rfl
      | linarith
      | exact absurd hs (by decide)
      | exact ⟨by linarith, by linarith⟩
      | (obtain ⟨ha, hb⟩ := hs; exfalso; linarith)

lemma health_score_unclamped (r : ServiceMetrics) :
    calculate_health_score r =
      100 - errPenalty r.error_rate - latPenalty r.latency_p95 -
        cpuPenalty r.cpu_usage := by
  rw [health_score_eq]
  rcases errPenalty_cases r.error_rate with h1 | h1 | h1 | h1 <;>
    rcases latPenalty_cases r.latency_p95 with h2 | h2 | h2 | h2 <;>
    rcases cpuPenalty_cases r.cpu_usage with h3 | h3 | h3 <;>
    rw [h1, h2, h3] <;> rw [max_eq_right (by norm_num)]

/-- C1: the health score is 100 minus independent additive penalties, each
determined by the worst matching bracket of its metric (strict thresholds,
so the exact boundary values incur no penalty from their bracket), clamped
below at 0 and hence always in [0, 100]; the status is derived from the
score by the exact thresholds 90/70/50, and the function is deterministic,
depending on nothing but the record's error rate, latency p95 and cpu
usage. -/
theorem c1_health_score_and_status :
    (∀ r : ServiceMetrics,
      0 ≤ calculate_health_score r ∧ calculate_health_score r ≤ 100) ∧
    (∀ r : ServiceMetrics,
      calculate_health_score r =
        max 0 (100 - errPenalty r.error_rate - latPenalty r.latency_p95 -
          cpuPenalty r.cpu_usage)) ∧
    ((∀ e : ℚ, e > 0.1 → errPenalty e = 30) ∧
     (∀ e : ℚ, e > 0.05 → e ≤ 0.1 → errPenalty e = 15) ∧
     (∀ e : ℚ, e > 0.01 → e ≤ 0.05 → errPenalty e = 5) ∧
     (∀ e : ℚ, e ≤ 0.01 → errPenalty e = 0)) ∧
    ((∀ l : ℚ, l > 1000 → latPenalty l = 25) ∧
     (∀ l : ℚ, l > 500 → l ≤ 1000 → latPenalty l = 15) ∧
     (∀ l : ℚ, l > 200 → l ≤ 500 → latPenalty l = 5) ∧
     (∀ l : ℚ, l ≤ 200 → latPenalty l = 0)) ∧
    ((∀ c : ℚ, c > 0.9 → cpuPenalty c = 20) ∧
     (∀ c : ℚ, c > 0.7 → c ≤ 0.9 → cpuPenalty c = 10) ∧
     (∀ c : ℚ, c ≤ 0.7 → cpuPenalty c = 0)) ∧
    (errPenalty 0.01 = 0 ∧ errPenalty 0.05 = 5 ∧ errPenalty 0.1 = 15 ∧
     latPenalty 200 = 0 ∧ latPenalty 500 = 5 ∧ latPenalty 1000 = 15 ∧
     cpuPenalty 0.7 = 0 ∧ cpuPenalty 0.9 = 10) ∧
    (∀ s : ℚ,
      (get_status_from_health s = .healthy ↔ 90 ≤ s) ∧
      (get_status_from_health s = .degraded ↔ 70 ≤ s ∧ s < 90) ∧
      (get_status_from_health s = .warning ↔ 50 ≤ s ∧ s < 70) ∧
      (get_status_from_health s = .critical ↔ s < 50)) ∧
    (∀ r r' : ServiceMetrics, r.error_rate = r'.error_rate →
      r.latency_p95 = r'.latency_p95 → r.cpu_usage = r'.cpu_usage →
      calculate_health_score r = calculate_health_score r') := by
  refine ⟨?_, health_score_eq, ⟨?_, ?_, ?_, ?_⟩, ⟨?_, ?_, ?_, ?_⟩,
    ⟨?_, ?_, ?_⟩, ?_, get_status_iff, ?_⟩
  · intro r
    constructor
    · rw [health_score_eq]
      exact le_max_left _ _
    · rw [health_score_eq]
      have h1 : 0 ≤ errPenalty r.error_rate := by
        rcases errPenalty_cases r.error_rate with h | h | h | h <;> rw [h] <;> norm_num
      have h2 : 0 ≤ latPenalty r.latency_p95 := by
        rcases latPenalty_cases r.latency_p95 with h | h | h | h <;> rw [h] <;> norm_num
      have h3 : 0 ≤ cpuPenalty r.cpu_usage := by
        rcases cpuPenalty_cases r.cpu_usage with h | h | h <;> rw [h] <;> norm_num
      exact max_le (by norm_num) (by linarith)
  · intro e h
    unfold errPenalty
    split_ifs <;> first | rfl | linarith
  · intro e h h'
    unfold errPenalty
    split_ifs <;> first | rfl | linarith
  · intro e h h'
    unfold errPenalty
    split_ifs <;> first | rfl | linarith
  · intro e h
    unfold errPenalty
    split_ifs <;> first | rfl | linarith
  · intro l h
    unfold latPenalty
    split_ifs <;> first | rfl | linarith
  · intro l h h'
    unfold latPenalty
    split_ifs <;> first | rfl | linarith
  · intro l h h'
    unfold latPenalty
    split_ifs <;> first | rfl | linarith
  · intro l h
    unfold latPenalty
    split_ifs <;> first | rfl | linarith
  · intro c h
    unfold cpuPenalty
    split_ifs <;> first | rfl | linarith
  · intro c h h'
    unfold cpuPenalty
    split_ifs <;> first | rfl | linarith
  · intro c h
    unfold cpuPenalty
    split_ifs <;> first | rfl | linarith
  · refine ⟨?_, ?_, ?_, ?_, ?_, ?_, ?_, ?_⟩ <;> norm_num [errPenalty, latPenalty, cpuPenalty]
  · intro r r' h1 h2 h3
    unfold calculate_health_score
    rw [h1, h2, h3]

/-- C9 (implicit): the maximum total penalty is 30 + 25 + 20 = 75, so the
health score is at least 25 and the clamp to 0 is never active; status
`critical` (score below 50) therefore occurs exactly for scores in
[25, 45]. -/
theorem c9_health_score_at_least_25 :
    (∀ r : ServiceMetrics, 25 ≤ calculate_health_score r) ∧
    (∀ r : ServiceMetrics,
      calculate_health_score r =
        100 - errPenalty r.error_rate - latPenalty r.latency_p95 -
          cpuPenalty r.cpu_usage) ∧
    (∀ r : ServiceMetrics,
      get_status_from_health (calculate_health_score r) = .critical ↔
        25 ≤ calculate_health_score r ∧ calculate_health_score r ≤ 45) := by
  have hmin : ∀ r : ServiceMetrics, 25 ≤ calculate_health_score r := by
    intro r
    rw [health_score_unclamped]
    rcases errPenalty_cases r.error_rate with h1 | h1 | h1 | h1 <;>
      rcases latPenalty_cases r.latency_p95 with h2 | h2 | h2 | h2 <;>
      rcases cpuPenalty_cases r.cpu_usage with h3 | h3 | h3 <;>
      rw [h1, h2, h3] <;> norm_num
  refine ⟨hmin, health_score_unclamped, ?_⟩
  intro r
  have h4 := (get_status_iff (calculate_health_score r)).2.2.2
  rw [h4]
  rw [health_score_unclamped]
  rcases errPenalty_cases r.error_rate with h1 | h1 | h1 | h1 <;>
    rcases latPenalty_cases r.latency_p95 with h2 | h2 | h2 | h2 <;>
    rcases cpuPenalty_cases r.cpu_usage with h3 | h3 | h3 <;>
    rw [h1, h2, h3] <;> norm_num

/-! ### Store: upsert keyed on (entity, timestamp) -/

/-- C2: the upsert preserves the at-most-one-record-per-(entity, timestamp)
invariant, always records the written row (no failure on key conflict),
and upserting two records with the same key in sequence leaves exactly one
record for that key, holding the second payload. -/
theorem c2_upsert_keeps_key_unique :
    (∀ (table : List ServiceMetrics) (m : ServiceMetrics),
      MetricKeyUnique table → MetricKeyUnique (store_metrics table m)) ∧
    (∀ (table : List ServiceMetrics) (m : ServiceMetrics),
      m ∈ store_metrics table m) ∧
    (∀ (table : List ServiceMetrics) (m1 m2 : ServiceMetrics),
      metricKey m1 = metricKey m2 →
      (store_metrics (store_metrics table m1) m2).filter
        (fun r => decide (metricKey r = metricKey m2)) = [m2]) := by
  refine ⟨?_, ?_, ?_⟩
  · intro table m hu
    unfold MetricKeyUnique store_metrics
    rw [List.map_append]
    apply List.Nodup.append
    · exact List.Nodup.sublist ((List.filter_sublist table).map metricKey) hu
    · simp
    · intro k hk1 hk2
      simp only [List.map_cons, List.map_nil, List.mem_singleton] at hk2
      subst hk2
      rcases List.mem_map.mp hk1 with ⟨r, hr, hkey⟩
      rcases List.mem_filter.mp hr with ⟨-, hdec⟩
      exact absurd hkey (by simpa using hdec)
  · intro table m
    unfold store_metrics
    simp
  · intro table m1 m2 hk
    unfold store_metrics
    have h1 : List.filter (fun r => decide (metricKey r ≠ metricKey m2)) [m1] = [] := by
      simp [List.filter, hk]
    have h2 : ((table.filter (fun r => decide (metricKey r ≠ metricKey m1))).filter
        (fun r => decide (metricKey r ≠ metricKey m2))).filter
          (fun r => decide (metricKey r = metricKey m2)) = [] := by
      apply List.filter_eq_nil.mpr
      intro a ha
      rcases List.mem_filter.mp ha with ⟨-, hne⟩
      simpa using (by simpa using hne : metricKey a ≠ metricKey m2)
    rw [List.filter_append, List.filter_append, h1, List.append_nil, h2]
    simp [List.filter]

/-! ### Detector: helper lemmas -/

lemma detectLoop_spec (svc ts : String) (features : List FeatureVec) :
    ∀ (l : List (FeatureVec × ℚ × Bool)) (found table : List AnomalyRecord),
      detectLoop svc ts features l (found, table) =
        (found ++ l.filterMap (fun p =>
            if p.2.2 then some (mkAnomaly svc ts features p.1 p.2.1) else none),
          table ++ l.filterMap (fun p =>
            if p.2.2 then some (mkAnomaly svc ts features p.1 p.2.1) else none)) := by
  intro l
  induction l with
  | nil =>
    intro found table
    simp [detectLoop]
  | cons hd tl ih =>
    intro found table
    obtain ⟨fv, score, isAnom⟩ := hd
    cases isAnom with
    | false => simp [detectLoop, ih]
    | true => simp [detectLoop, store_anomaly, ih]

lemma detect_anomalies_spec (model : List FeatureVec → List (ℚ × Bool))
    (svc ts : String) (features : List FeatureVec) (table : List AnomalyRecord)
    (h10 : ¬ features.length < 10) :
    detect_anomalies model svc ts features table =
      (((features.take 5).zip ((model features).take 5)).filterMap (fun p =>
          if p.2.2 then some (mkAnomaly svc ts features p.1 p.2.1) else none),
        table ++ ((features.take 5).zip ((model features).take 5)).filterMap (fun p =>
          if p.2.2 then some (mkAnomaly svc ts features p.1 p.2.1) else none)) := by
  unfold detect_anomalies
  rw [if_neg h10, detectLoop_spec]
  simp

/-- C3: with fewer than 10 records in the window, detection returns the
empty list and leaves the anomaly table untouched. -/
theorem c3_insufficient_history_returns_empty :
    ∀ (model : List FeatureVec → List (ℚ × Bool)) (svc ts : String)
      (features : List FeatureVec) (table : List AnomalyRecord),
      features.length < 10 →
      detect_anomalies model svc ts features table = ([], table) := by
  intro model svc ts features table h
  unfold detect_anomalies
  rw [if_pos h]

/-- C6: with at least 10 records, detection examines exactly the 5 most
recent observations, emits one record per observation the model labels
anomalous (so at most 5), persists each via the append operation, and
returns exactly the persisted list. -/
theorem c6_detect_scans_recent_five_and_persists :
    ∀ (model : List FeatureVec → List (ℚ × Bool)) (svc ts : String)
      (features : List FeatureVec) (table : List AnomalyRecord),
      10 ≤ features.length →
      (detect_anomalies model svc ts features table).1 =
          ((features.take 5).zip ((model features).take 5)).filterMap (fun p =>
            if p.2.2 then some (mkAnomaly svc ts features p.1 p.2.1) else none) ∧
      (detect_anomalies model svc ts features table).2 =
          table ++ (detect_anomalies model svc ts features table).1 ∧
      (detect_anomalies model svc ts features table).1.length ≤ 5 ∧
      (∀ a ∈ (detect_anomalies model svc ts features table).1,
        ∃ p ∈ (features.take 5).zip ((model features).take 5),
          p.2.2 = true ∧ a = mkAnomaly svc ts features p.1 p.2.1) := by
  intro model svc ts features table h
  have h10 : ¬ features.length < 10 := by omega
  rw [detect_anomalies_spec model svc ts features table h10]
  refine ⟨rfl, rfl, ?_, ?_⟩
  · calc (((features.take 5).zip ((model features).take 5)).filterMap (fun p =>
          if p.2.2 then some (mkAnomaly svc ts features p.1 p.2.1) else none)).length
        ≤ ((features.take 5).zip ((model features).take 5)).length :=
          List.length_filterMap_le _ _
      _ ≤ (features.take 5).length := by
          rw [List.length_zip]
          exact min_le_left _ _
      _ ≤ 5 := by
          rw [List.length_take]
          exact min_le_left _ _
  · intro a ha
    rcases List.mem_filterMap.mp ha with ⟨p, hp, hpa⟩
    refine ⟨p, hp, ?_⟩
    by_cases hb : p.2.2
    · rw [if_pos hb] at hpa
      exact ⟨hb, (Option.some_injective _ hpa).symm⟩
    · rw [if_neg hb] at hpa
      cases hpa

/-- C4: severity is assigned from the anomaly score by the fixed strict
thresholds 0.9 / 0.7 / 0.5, is monotone in the score, and every anomaly
reported by detection carries the severity of its own score. -/
theorem c4_severity_thresholds_monotone :
    (∀ s : ℚ, severityOf s = .critical ↔ s > 0.9) ∧
    (∀ s : ℚ, severityOf s = .high ↔ 0.7 < s ∧ s ≤ 0.9) ∧
    (∀ s : ℚ, severityOf s = .medium ↔ 0.5 < s ∧ s ≤ 0.7) ∧
    (∀ s : ℚ, severityOf s = .low ↔ s ≤ 0.5) ∧
    (∀ s t : ℚ, s ≤ t → sevRank (severityOf s) ≤ sevRank (severityOf t)) ∧
    severityOf 0.95 = .critical ∧ severityOf 0.6 = .medium ∧
    (∀ (model : List FeatureVec → List (ℚ × Bool)) (svc ts : String)
      (features : List FeatureVec) (table : List AnomalyRecord),
      ∀ a ∈ (detect_anomalies model svc ts features table).1,
        a.severity = severityOf a.anomaly_score) := by
  refine ⟨?_, ?_, ?_, ?_, ?_, by norm_num [severityOf], by norm_num [severityOf], ?_⟩
  · intro s
    unfold severityOf
    split_ifs with h1 h2 h3 <;>
      constructor <;> intro h <;>
      first
        | rfl
        | linarith
        | exact absurd h (by decide)
  · intro s
    unfold severityOf
    split_ifs with h1 h2 h3 <;>
      constructor <;> intro h <;>
      first
        | rfl
        | linarith
        | exact absurd h (by decide)
        | exact ⟨by linarith, by linarith⟩
        | (obtain ⟨ha, hb⟩ := h; exfalso; linarith)
  · intro s
    unfold severityOf
    split_ifs with h1 h2 h3 <;>
      constructor <;> intro h <;>
      first
        | rfl
        | linarith
        | exact absurd h (by decide)
        | exact ⟨by linarith, by linarith⟩
        | (obtain ⟨ha, hb⟩ := h; exfalso; linarith)
  · intro s
    unfold severityOf
    split_ifs with h1 h2 h3 <;>
      constructor <;> intro h <;>
      first
        | rfl
        | linarith
        | exact absurd h (by decide)
  · intro s t hst
    unfold severityOf
    split_ifs <;> simp only [sevRank] <;> norm_num <;> linarith
  · intro model svc ts features table a ha
    by_cases h10 : features.length < 10
    · unfold detect_anomalies at ha
      rw [if_pos h10] at ha
      cases ha
    · rw [detect_anomalies_spec model svc ts features table h10] at ha
      rcases List.mem_filterMap.mp ha with ⟨p, -, hpa⟩
      by_cases hb : p.2.2
      · rw [if_pos hb] at hpa
        rw [← Option.some_injective _ hpa]
        rfl
      · rw [if_neg hb] at hpa
        cases hpa

/-! ### Synthetic window for the attribution test -/

/-- A flat observation: every feature 1 except a cpu usage of 0. -/
def flatObs : FeatureVec := ⟨1, 1, 1, 0, 1, 1⟩

/-- The recent observation whose cpu usage lies far outside the window's
mean plus-or-minus two standard deviations. -/
def cpuSpikeObs : FeatureVec := ⟨1, 1, 1, 10, 1, 1⟩

/-- A ten-observation window, most recent first, whose only deviation is
the recent cpu spike. -/
def cpuSpikeWindow : List FeatureVec :=
  [cpuSpikeObs, flatObs, flatObs, flatObs, flatObs, flatObs, flatObs,
    flatObs, flatObs, flatObs]

/-- C5: a feature is listed as affected exactly when its value deviates
from the whole-window column mean by more than twice the column's standard
deviation; on the synthetic window with one recent cpu spike, exactly
`cpu_usage` is flagged; and every anomaly reported by detection stores the
comma-joined affected list of one of the 5 most recent observations,
computed against the entire window. -/
theorem c5_affected_iff_two_sigma :
    (∀ (features : List FeatureVec) (fv : FeatureVec) (name : List Char),
      name ∈ affectedMetricsList features fv ↔
        ∃ i : Fin 6, name = metricName i ∧
          |(fv.get i : ℝ) - (meanQ (col features i) : ℝ)| >
            2 * Real.sqrt (varQ (col features i))) ∧
    affectedMetricsList cpuSpikeWindow cpuSpikeObs = ["cpu_usage".toList] ∧
    (∀ (model : List FeatureVec → List (ℚ × Bool)) (svc ts : String)
      (features : List FeatureVec) (table : List AnomalyRecord),
      ∀ a ∈ (detect_anomalies model svc ts features table).1,
        ∃ fv ∈ features.take 5,
          a.affected_metrics = pyJoin sepC (affectedMetricsList features fv)) := by
  refine ⟨?_, ?_, ?_⟩
  · intro features fv name
    constructor
    · intro h
      rcases List.mem_filterMap.mp h with ⟨i, -, hi⟩
      by_cases haff : affectedQ (fv.get i) (col features i)
      · rw [if_pos haff] at hi
        exact ⟨i, (Option.some_injective _ hi).symm, haff⟩
      · rw [if_neg haff] at hi
        cases hi
    · rintro ⟨i, rfl, hi⟩
      exact List.mem_filterMap.mpr ⟨i, List.mem_finRange i,
        by rw [if_pos (show affectedQ (fv.get i) (col features i) from hi)]⟩
  · have e0 : ¬ affectedQ (cpuSpikeObs.get 0) (col cpuSpikeWindow 0) := by
      rw [affectedQ_iff]
      norm_num [col, meanQ, varQ, cpuSpikeWindow, cpuSpikeObs, flatObs,
        FeatureVec.get]
    have e1 : ¬ affectedQ (cpuSpikeObs.get 1) (col cpuSpikeWindow 1) := by
      rw [affectedQ_iff]
      norm_num [col, meanQ, varQ, cpuSpikeWindow, cpuSpikeObs, flatObs,
        FeatureVec.get]
    have e2 : ¬ affectedQ (cpuSpikeObs.get 2) (col cpuSpikeWindow 2) := by
      rw [affectedQ_iff]
      norm_num [col, meanQ, varQ, cpuSpikeWindow, cpuSpikeObs, flatObs,
        FeatureVec.get]
    have e3 : affectedQ (cpuSpikeObs.get 3) (col cpuSpikeWindow 3) := by
      rw [affectedQ_iff]
      norm_num [col, meanQ, varQ, cpuSpikeWindow, cpuSpikeObs, flatObs,
        FeatureVec.get]
    have e4 : ¬ affectedQ (cpuSpikeObs.get 4) (col cpuSpikeWindow 4) := by
      rw [affectedQ_iff]
      norm_num [col, meanQ, varQ, cpuSpikeWindow, cpuSpikeObs, flatObs,
        FeatureVec.get]
    have e5 : ¬ affectedQ (cpuSpikeObs.get 5) (col cpuSpikeWindow 5) := by
      rw [affectedQ_iff]
      norm_num [col, meanQ, varQ, cpuSpikeWindow, cpuSpikeObs, flatObs,
        FeatureVec.get]
    unfold affectedMetricsList
    rw [show List.finRange 6 = [0, 1, 2, 3, 4, 5] from by decide]
    simp only [List.filterMap_cons, List.filterMap_nil, if_pos e3, if_neg e0,
      if_neg e1, if_neg e2, if_neg e4, if_neg e5]
    rfl
  · intro model svc ts features table a ha
    by_cases h10 : features.length < 10
    · unfold detect_anomalies at ha
      rw [if_pos h10] at ha
      cases ha
    · rw [detect_anomalies_spec model svc ts features table h10] at ha
      rcases List.mem_filterMap.mp ha with ⟨p, hp, hpa⟩
      obtain ⟨fv, sc, lab⟩ := p
      by_cases hb : lab
      · rw [if_pos (by exact hb)] at hpa
        refine ⟨fv, (List.mem_zip hp).1, ?_⟩
        rw [← Option.some_injective _ hpa]
        rfl
      · rw [if_neg (by exact hb)] at hpa
        cases hpa

/-! ### Collector fault tolerance -/

lemma extract_value_caught (b : SourceBehavior) (h : CaughtBadReading b) :
    extract_value (query b) = .ok (.finite 0) := by
  rcases h with rfl | rfl | ⟨st, res, rfl, hst⟩ | ⟨st, rfl⟩ | ⟨st, tl, rfl⟩
  · simp [query, extract_value, tryBody, catches]
  · simp [query, extract_value, tryBody, catches]
  · simp [query, extract_value, tryBody, catches, hst]
  · simp only [query, extract_value, tryBody]
    split_ifs <;> rfl
  · simp only [query, extract_value, tryBody, pyFloatOfValue]
    split_ifs <;> rfl

lemma extract_value_num (v : ℚ) (tl : List PromValue) :
    extract_value (query (.returns (.resp "success" (PromValue.num v :: tl)))) =
      .ok (.finite v) := by
  simp [query, extract_value, tryBody, pyFloatOfValue]

lemma collect_spec (source : MetricQuery → SourceBehavior) (svc now : String)
    (f : MetricQuery → ℚ)
    (hf : ∀ q, extract_value (query (source q)) = .ok (.finite (f q))) :
    collect_service_metrics source svc now = .ok
      { service_name := svc
        timestamp := now
        request_rate := .finite (f .reqRate)
        error_rate := .finite (f .errRate)
        latency_p50 := .finite (f .p50)
        latency_p95 := .finite (f .p95)
        latency_p99 := .finite (f .p99)
        cpu_usage := .finite (f .cpu)
        memory_usage := .finite (f .mem)
        restart_count := truncQ (f .restarts)
        pod_count := truncQ (f .podCount) } := by
  unfold collect_service_metrics
  rw [hf .reqRate, hf .errRate, hf .p50, hf .p95, hf .p99, hf .cpu, hf .mem,
    hf .restarts, hf .podCount]
  rfl

lemma truncQ_zero : truncQ 0 = 0 := by decide

lemma bind_ok_eq {α β : Type} (a : α) (f : α → Except PyExc β) :
    (Except.ok a : Except PyExc α) >>= f = f a := rfl

lemma bind_error_eq {α β : Type} (e : PyExc) (f : α → Except PyExc β) :
    (Except.error e : Except PyExc α) >>= f = Except.error e := rfl

lemma collect_ok_inv (source : MetricQuery → SourceBehavior) (svc now : String)
    (m : CollectedMetrics)
    (h : collect_service_metrics source svc now = Except.ok m) :
    extract_value (query (source .reqRate)) = .ok m.request_rate ∧
    extract_value (query (source .errRate)) = .ok m.error_rate ∧
    extract_value (query (source .p50)) = .ok m.latency_p50 ∧
    extract_value (query (source .p95)) = .ok m.latency_p95 ∧
    extract_value (query (source .p99)) = .ok m.latency_p99 ∧
    extract_value (query (source .cpu)) = .ok m.cpu_usage ∧
    extract_value (query (source .mem)) = .ok m.memory_usage ∧
    (∃ f, extract_value (query (source .restarts)) = .ok f ∧
      pyInt f = .ok m.restart_count) ∧
    (∃ f, extract_value (query (source .podCount)) = .ok f ∧
      pyInt f = .ok m.pod_count) := by
  unfold collect_service_metrics at h
  rcases h1 : extract_value (query (source .reqRate)) with e | v1 <;> rw [h1] at h <;>
    simp only [bind_error_eq, bind_ok_eq] at h <;> try exact Except.noConfusion h
  rcases h2 : extract_value (query (source .errRate)) with e | v2 <;> rw [h2] at h <;>
    simp only [bind_error_eq, bind_ok_eq] at h <;> try exact Except.noConfusion h
  rcases h3 : extract_value (query (source .p50)) with e | v3 <;> rw [h3] at h <;>
    simp only [bind_error_eq, bind_ok_eq] at h <;> try exact Except.noConfusion h
  rcases h4 : extract_value (query (source .p95)) with e | v4 <;> rw [h4] at h <;>
    simp only [bind_error_eq, bind_ok_eq] at h <;> try exact Except.noConfusion h
  rcases h5 : extract_value (query (source .p99)) with e | v5 <;> rw [h5] at h <;>
    simp only [bind_error_eq, bind_ok_eq] at h <;> try exact Except.noConfusion h
  rcases h6 : extract_value (query (source .cpu)) with e | v6 <;> rw [h6] at h <;>
    simp only [bind_error_eq, bind_ok_eq] at h <;> try exact Except.noConfusion h
  rcases h7 : extract_value (query (source .mem)) with e | v7 <;> rw [h7] at h <;>
    simp only [bind_error_eq, bind_ok_eq] at h <;> try exact Except.noConfusion h
  rcases h8 : extract_value (query (source .restarts)) with e | v8 <;> rw [h8] at h <;>
    simp only [bind_error_eq, bind_ok_eq] at h <;> try exact Except.noConfusion h
  rcases h8i : pyInt v8 with e | r8 <;> rw [h8i] at h <;>
    simp only [bind_error_eq, bind_ok_eq] at h <;> try exact Except.noConfusion h
  rcases h9 : extract_value (query (source .podCount)) with e | v9 <;> rw [h9] at h <;>
    simp only [bind_error_eq, bind_ok_eq] at h <;> try exact Except.noConfusion h
  rcases h9i : pyInt v9 with e | r9 <;> rw [h9i] at h <;>
    simp only [bind_error_eq, bind_ok_eq, pure, Except.pure, Except.ok.injEq] at h <;> try exact Except.noConfusion h
  subst h
  exact ⟨rfl, rfl, rfl, rfl, rfl, rfl, rfl, ⟨v8, rfl, h8i⟩, ⟨v9, rfl, h9i⟩⟩

/-- C7 counterexample: the claim's universal fault tolerance fails on the
code.  A `success` body whose first value is JSON `null` reaches
`float(None)`, whose `TypeError` is not in `_extract_value`'s except
clause and propagates out of `collect_service_metrics`; and a restart
reading of the string `nan` parses in `float` but then
`int(nan)` raises an uncaught `ValueError`.  In both runs no record is
produced. -/
theorem c7_collect_raises_on_malformed :
    collect_service_metrics
        (fun _ => .returns (.resp "success" [PromValue.nullVal]))
        "api-gateway" "t0" = Except.error PyExc.typeError ∧
    collect_service_metrics
        (fun q => match q with
          | .restarts => .returns (.resp "success" [PromValue.nanStr])
          | _ => .returns (.resp "success" [PromValue.num 1]))
        "api-gateway" "t0" = Except.error PyExc.valueError := by
  constructor <;> rfl

/-- C7 (amended): restricted to source answers whose defects the code's
except clause actually covers — request errors, dict bodies raising
`KeyError`/`IndexError`, non-`success` statuses, empty results, and
values `float()` rejects with `ValueError` — collection never fails: each
such reading is replaced by 0.0, a stamped record is always produced when
every reading is absorbed-or-numeric, each of the nine readings is
extracted independently, and the other readings of two successful
collections that differ only at one query agree. -/
theorem c7_collector_absorbs_caught_failures :
    (∀ b : SourceBehavior, CaughtBadReading b →
      extract_value (query b) = .ok (.finite 0)) ∧
    (∀ (source : MetricQuery → SourceBehavior) (svc now : String),
      (∀ q, CaughtBadReading (source q) ∨ NumReading (source q)) →
      ∃ m, collect_service_metrics source svc now = Except.ok m ∧
        m.service_name = svc ∧ m.timestamp = now ∧
        (∀ q, CaughtBadReading (source q) → readingOf m q = .finite 0)) ∧
    (∀ (s1 s2 : MetricQuery → SourceBehavior) (q : MetricQuery),
      (∀ q', q' ≠ q → s1 q' = s2 q') →
      ∀ q', q' ≠ q →
        extract_value (query (s1 q')) = extract_value (query (s2 q'))) ∧
    (∀ (s1 s2 : MetricQuery → SourceBehavior) (q : MetricQuery)
      (svc now : String) (m1 m2 : CollectedMetrics),
      (∀ q', q' ≠ q → s1 q' = s2 q') →
      collect_service_metrics s1 svc now = Except.ok m1 →
      collect_service_metrics s2 svc now = Except.ok m2 →
      ∀ q', q' ≠ q → readingOf m1 q' = readingOf m2 q') := by
  refine ⟨extract_value_caught, ?_, ?_, ?_⟩
  · intro source svc now h
    have hall : ∀ q, ∃ v : ℚ,
        extract_value (query (source q)) = .ok (.finite v) := by
      intro q
      rcases h q with hb | ⟨v, tl, hv⟩
      · exact ⟨0, extract_value_caught _ hb⟩
      · exact ⟨v, by rw [hv]; exact extract_value_num v tl⟩
    choose f hf using hall
    refine ⟨_, collect_spec source svc now f hf, rfl, rfl, ?_⟩
    intro q hbq
    have h0 := extract_value_caught _ hbq
    rw [hf q] at h0
    have hq0 : f q = 0 := by
      simpa using h0
    cases q <;> simp [readingOf, hq0, truncQ_zero]
  · intro s1 s2 q hagree q' hne
    rw [hagree q' hne]
  · intro s1 s2 q svc now m1 m2 hagree h1 h2 q' hne
    obtain ⟨a1, b1, c1, d1, e1, f1, g1, ⟨u1, u1e, u1p⟩, ⟨w1, w1e, w1p⟩⟩ :=
      collect_ok_inv s1 svc now m1 h1
    obtain ⟨a2, b2, c2, d2, e2, f2, g2, ⟨u2, u2e, u2p⟩, ⟨w2, w2e, w2p⟩⟩ :=
      collect_ok_inv s2 svc now m2 h2
    have hx : extract_value (query (s1 q')) = extract_value (query (s2 q')) := by
      rw [hagree q' hne]
    cases q'
    case reqRate =>
      have hv : m1.request_rate = m2.request_rate := by
        have := a1.symm.trans (hx.trans a2)
        simpa using this
      simp [readingOf, hv]
    case errRate =>
      have hv : m1.error_rate = m2.error_rate := by
        have := b1.symm.trans (hx.trans b2)
        simpa using this
      simp [readingOf, hv]
    case p50 =>
      have hv : m1.latency_p50 = m2.latency_p50 := by
        have := c1.symm.trans (hx.trans c2)
        simpa using this
      simp [readingOf, hv]
    case p95 =>
      have hv : m1.latency_p95 = m2.latency_p95 := by
        have := d1.symm.trans (hx.trans d2)
        simpa using this
      simp [readingOf, hv]
    case p99 =>
      have hv : m1.latency_p99 = m2.latency_p99 := by
        have := e1.symm.trans (hx.trans e2)
        simpa using this
      simp [readingOf, hv]
    case cpu =>
      have hv : m1.cpu_usage = m2.cpu_usage := by
        have := f1.symm.trans (hx.trans f2)
        simpa using this
      simp [readingOf, hv]
    case mem =>
      have hv : m1.memory_usage = m2.memory_usage := by
        have := g1.symm.trans (hx.trans g2)
        simpa using this
      simp [readingOf, hv]
    case restarts =>
      have hu : u1 = u2 := by
        have := u1e.symm.trans (hx.trans u2e)
        simpa using this
      have hv : m1.restart_count = m2.restart_count := by
        have := u1p.symm.trans ((congrArg pyInt hu).trans u2p)
        simpa using this
      simp [readingOf, hv]
    case podCount =>
      have hu : w1 = w2 := by
        have := w1e.symm.trans (hx.trans w2e)
        simpa using this
      have hv : m1.pod_count = m2.pod_count := by
        have := w1p.symm.trans ((congrArg pyInt hu).trans w2p)
        simpa using this
      simp [readingOf, hv]

/-! ### Scheduler resilience -/

/-- C8: one tick of the collector loop is total for every environment
behavior: a failing entity-list read leaves the state untouched (the loop
just waits for the next tick), every listed entity is attempted no matter
which entities fail, processing continues past a failing entity to the
rest of the list, and after any tick the loop takes the next one. -/
theorem c8_scheduler_survives_failures :
    (∀ (σ E : Type) (work : String → σ → σ × Option E) (e : E) (s : σ),
      background_collector_tick (Except.error e) work s = s) ∧
    (∀ (σ E : Type) (work : String → σ → σ × Option E) (names : List String)
      (s : σ), (runEntities work names s).2 = names.length) ∧
    (∀ (σ E : Type) (work : String → σ → σ × Option E) (pre : List String)
      (n : String) (post : List String) (s : σ),
      (runEntities work (pre ++ n :: post) s).1 =
        (runEntities work post ((work n (runEntities work pre s).1).1)).1) ∧
    (∀ (σ E : Type)
      (env : ℕ → Except E (List String) × (String → σ → σ × Option E))
      (s0 : σ) (n : ℕ),
      background_collector_run env s0 (n + 1) =
        background_collector_tick (env n).1 (env n).2
          (background_collector_run env s0 n)) := by
  refine ⟨?_, ?_, ?_, ?_⟩
  · intro σ E work e s
    rfl
  · intro σ E work names
    induction names with
    | nil => intro s; rfl
    | cons n rest ih =>
      intro s
      simp [runEntities, ih]
  · intro σ E work pre
    induction pre with
    | nil =>
      intro n post s
      simp [runEntities]
    | cons p pre' ih =>
      intro n post s
      simp only [List.cons_append, runEntities, List.append_eq]
      rw [ih]
  · intro σ E env s0 n
    rfl

/-! ### Affected-metrics round trip -/

/-- The `metric_names` list of `detect_anomalies`. -/
def metric_names : List (List Char) := (List.finRange 6).map metricName

lemma metricName_no_comma : ∀ i : Fin 6, ',' ∉ metricName i := by decide

lemma metricName_ne_nil : ∀ i : Fin 6, metricName i ≠ [] := by decide

lemma pySplitCS_no_comma :
    ∀ (s : List Char), ',' ∉ s → ∀ acc, pySplitCS acc s = [acc.reverse ++ s] := by
  intro s
  induction s with
  | nil =>
    intro _ acc
    simp [pySplitCS]
  | cons c rest ih =>
    intro h acc
    have hc : c ≠ ',' := fun hc => h (by simp [hc])
    have hr : ',' ∉ rest := fun hm => h (List.mem_cons_of_mem _ hm)
    cases rest with
    | nil => simp [pySplitCS]
    | cons c2 rest2 =>
      rw [show pySplitCS acc (c :: c2 :: rest2) = pySplitCS (c :: acc) (c2 :: rest2) from
            by simp [pySplitCS, hc]]
      rw [ih hr (c :: acc)]
      simp

lemma pySplitCS_sep :
    ∀ (x : List Char), ',' ∉ x → ∀ (r : List Char) (acc : List Char),
      pySplitCS acc (x ++ sepC ++ r) = (acc.reverse ++ x) :: pySplitCS [] r := by
  intro x
  induction x with
  | nil =>
    intro _ r acc
    simp [sepC, pySplitCS]
  | cons c x' ih =>
    intro h r acc
    have hc : c ≠ ',' := fun hc => h (by simp [hc])
    have hx' : ',' ∉ x' := fun hm => h (List.mem_cons_of_mem _ hm)
    have hne : x' ++ sepC ++ r ≠ [] := by simp [sepC]
    cases hxx : x' ++ sepC ++ r with
    | nil => exact absurd hxx hne
    | cons d rest =>
      rw [show (c :: x') ++ sepC ++ r = c :: (x' ++ sepC ++ r) from by simp]
      rw [hxx]
      rw [show pySplitCS acc (c :: d :: rest) = pySplitCS (c :: acc) (d :: rest) from
            by simp [pySplitCS, hc]]
      rw [← hxx, ih hx' r (c :: acc)]
      simp

lemma pySplit_join :
    ∀ (l : List (List Char)), (∀ x ∈ l, ',' ∉ x) → l ≠ [] →
      pySplit (pyJoin sepC l) = l := by
  intro l
  induction l with
  | nil =>
    intro _ hne
    exact absurd rfl hne
  | cons x xs ih =>
    intro h _
    cases xs with
    | nil =>
      show pySplitCS [] (pyJoin sepC [x]) = [x]
      rw [show pyJoin sepC [x] = x from rfl]
      rw [pySplitCS_no_comma x (h x (by simp)) []]
      simp
    | cons y ys =>
      show pySplitCS [] (x ++ sepC ++ pyJoin sepC (y :: ys)) = x :: y :: ys
      rw [pySplitCS_sep x (h x (by simp)) _ []]
      rw [show ([] : List Char).reverse ++ x = x from by simp]
      exact congrArg (List.cons x)
        (ih (fun z hz => h z (List.mem_cons_of_mem _ hz)) (by simp))

/-- C10: the affected-metrics field round-trips through persistence: a
list of names drawn from the six feature names, serialized by the
comma-space join on write, parses back to the original list on read (with
the empty list stored as the empty string and read back as the empty
list). -/
theorem c10_affected_metrics_round_trip :
    (pyJoin sepC [] = [] ∧ parse_affected (pyJoin sepC []) = []) ∧
    (∀ l : List (List Char), (∀ x ∈ l, x ∈ metric_names) →
      parse_affected (pyJoin sepC l) = l) := by
  constructor
  · exact ⟨rfl, rfl⟩
  · intro l h
    cases l with
    | nil => rfl
    | cons x xs =>
      have hfacts : ∀ z ∈ x :: xs, ',' ∉ z ∧ z ≠ [] := by
        intro z hz
        rcases List.mem_map.mp (h z hz) with ⟨i, -, rfl⟩
        exact ⟨metricName_no_comma i, metricName_ne_nil i⟩
      have hx : x ≠ [] := (hfacts x (by simp)).2
      have hjoin : pyJoin sepC (x :: xs) ≠ [] := by
        cases xs with
        | nil => exact hx
        | cons y ys =>
          show (x ++ sepC ++ pyJoin sepC (y :: ys)) ≠ []
          simp [sepC]
      unfold parse_affected
      rw [if_neg hjoin]
      exact pySplit_join (x :: xs) (fun z hz => (hfacts z hz).1) (by simp)

/-! ### Concrete instantiations of the hypothesis-bearing statements -/

/-- C1 exemplified: a latency of 1500 ms hits the worst bracket, and two
records differing only in fields the scorer ignores get the same score. -/
theorem c1_health_witness :
    latPenalty 1500 = 25 ∧
    calculate_health_score ⟨"a", "t0", 0, 0, 0, 0, 0, 0, 0, 0, 0⟩ =
      calculate_health_score ⟨"a", "t0", 5, 0, 0, 0, 0, 0, 7, 3, 2⟩ :=
  ⟨c1_health_score_and_status.2.2.2.1.1 1500 (by decide),
    c1_health_score_and_status.2.2.2.2.2.2.2 _ _ rfl rfl rfl⟩

/-- C2 exemplified: upserting two payloads under the key ("svc", "t1")
leaves exactly the second payload for that key. -/
theorem c2_upsert_witness :
    (store_metrics (store_metrics [] ⟨"svc", "t1", 1, 0, 0, 0, 0, 0, 0, 0, 0⟩)
        ⟨"svc", "t1", 2, 0, 0, 0, 0, 0, 0, 0, 0⟩).filter
      (fun r => decide (metricKey r =
        metricKey ⟨"svc", "t1", 2, 0, 0, 0, 0, 0, 0, 0, 0⟩)) =
      [⟨"svc", "t1", 2, 0, 0, 0, 0, 0, 0, 0, 0⟩] :=
  c2_upsert_keeps_key_unique.2.2 [] _ _ rfl

/-- C3 exemplified: a three-record window produces nothing and leaves the
anomaly table empty. -/
theorem c3_insufficient_history_witness :
    detect_anomalies (fun w => w.map fun _ => ((1 : ℚ), true)) "api-gateway"
      "t0" [flatObs, flatObs, flatObs] [] = ([], []) :=
  c3_insufficient_history_returns_empty _ "api-gateway" "t0" _ _ (by decide)

/-- C4 exemplified: severity rank is monotone across the scores 0 and 1. -/
theorem c4_severity_witness :
    sevRank (severityOf 0) ≤ sevRank (severityOf 1) :=
  c4_severity_thresholds_monotone.2.2.2.2.1 0 1 (by decide)

/-- C5 exemplified: an anomaly reported on the cpu-spike window stores the
joined affected list of one of the five most recent observations. -/
theorem c5_attribution_witness :
    ∃ fv ∈ cpuSpikeWindow.take 5,
      (mkAnomaly "svc" "t0" cpuSpikeWindow cpuSpikeObs 1).affected_metrics =
        pyJoin sepC (affectedMetricsList cpuSpikeWindow fv) := by
  have h5 : (detect_anomalies (fun w => w.map fun _ => ((1 : ℚ), true)) "svc"
      "t0" cpuSpikeWindow []).1 =
      [mkAnomaly "svc" "t0" cpuSpikeWindow cpuSpikeObs 1,
        mkAnomaly "svc" "t0" cpuSpikeWindow flatObs 1,
        mkAnomaly "svc" "t0" cpuSpikeWindow flatObs 1,
        mkAnomaly "svc" "t0" cpuSpikeWindow flatObs 1,
        mkAnomaly "svc" "t0" cpuSpikeWindow flatObs 1] := by
    rw [detect_anomalies_spec _ _ _ _ _ (by decide)]
    rfl
  exact c5_affected_iff_two_sigma.2.2 _ "svc" "t0" cpuSpikeWindow []
    (mkAnomaly "svc" "t0" cpuSpikeWindow cpuSpikeObs 1)
    (h5 ▸ List.mem_cons_self _ _)

/-- C6 exemplified: on a ten-record window the report never exceeds five
anomalies. -/
theorem c6_detect_witness :
    (detect_anomalies (fun w => w.map fun _ => ((0 : ℚ), false)) "svc" "t0"
        (List.replicate 10 flatObs) []).1.length ≤ 5 :=
  (c6_detect_scans_recent_five_and_persists _ "svc" "t0" _ [] (by decide)).2.2.1

/-- C7 (amended) exemplified: a source whose cpu query raises and whose
other queries answer the number 1 yields a record with every reading
intact except the absorbed cpu reading, which is stored as 0.0. -/
theorem c7_collector_witness :
    ∃ m, collect_service_metrics (fun q => match q with
        | .cpu => .raises
        | _ => .returns (.resp "success" [PromValue.num 1])) "svc" "t0" =
          Except.ok m ∧
      m.service_name = "svc" ∧ m.timestamp = "t0" ∧
      (∀ q, CaughtBadReading ((fun q => match q with
        | .cpu => SourceBehavior.raises
        | _ => SourceBehavior.returns (.resp "success" [PromValue.num 1])) q) →
        readingOf m q = .finite 0) :=
  c7_collector_absorbs_caught_failures.2.1 _ "svc" "t0"
    (fun q => match q with
      | .cpu => Or.inl (Or.inl rfl)
      | .reqRate => Or.inr ⟨1, [], rfl⟩
      | .errRate => Or.inr ⟨1, [], rfl⟩
      | .p50 => Or.inr ⟨1, [], rfl⟩
      | .p95 => Or.inr ⟨1, [], rfl⟩
      | .p99 => Or.inr ⟨1, [], rfl⟩
      | .mem => Or.inr ⟨1, [], rfl⟩
      | .restarts => Or.inr ⟨1, [], rfl⟩
      | .podCount => Or.inr ⟨1, [], rfl⟩)

/-- C8 exemplified: a failed entity-list read leaves the state of 7
untouched for that tick. -/
theorem c8_scheduler_witness :
    background_collector_tick (Except.error "db locked")
      (fun _ (s : ℕ) => (s + 1, (none : Option String))) 7 = 7 :=
  c8_scheduler_survives_failures.1 ℕ String _ "db locked" 7

/-- C10 exemplified: a two-name affected list survives the join/split
round trip. -/
theorem c10_round_trip_witness :
    parse_affected (pyJoin sepC ["cpu_usage".toList, "error_rate".toList]) =
      ["cpu_usage".toList, "error_rate".toList] :=
  c10_affected_metrics_round_trip.2 _ (by decide)

end Monitoring
